import Mathlib

/-!
Verification of `openstack_control.py` (IncludeOS tools), a CLI wrapper that
drives OpenStack VM lifecycle operations (create, start, stop, delete, status)
and glance image management (upload, delete).

Shallow embedding: the remote OpenStack API is abstracted as oracles.
* `vm_status` is embedded directly from the source over the list of servers the
  API returns for a name.
* The polling loops (`vm_create`'s status wait and ping wait, `vm_delete`'s
  absence wait, `vm_stop`'s and `vm_start`'s power-state waits) are embedded as
  fuel-indexed recursive functions over a time-indexed query oracle
  `q : Nat → QueryOutcome`, where `q k` is the outcome of the k-th call to
  `vm_status` made by the operation (`found d` = a status dict, `absent` =
  Python `None`, i.e. subscripting it raises `TypeError`, `raised e` = the
  underlying API call raised exception `e`).
* Each operation returns the trace of observable events (status queries,
  `time.sleep` calls, ping probes, mutating API calls) together with how the
  run ended: normal return (`ok`), an uncaught Python exception (`exn`), or
  fuel exhaustion (`spin`), which models a run that has not yet finished.
-/

/-- Python exceptions that the script's `try`/`except` blocks distinguish. -/
inductive PyExn where
  | typeError
  | notFound
  | other
deriving DecidableEq, Repr

/-- A server as reported by `nova.servers.list`: the fields `vm_status` reads
from `server.to_dict()`. `addresses` is the ordered dict of networks, each with
its ordered list of address strings. -/
structure ServerInfo where
  id : String
  status : String
  power_state : Int
  addresses : List (String × List String)
deriving DecidableEq, Repr

/-- The dictionary returned by `vm_status` (source lines 103-150). -/
structure StatusDict where
  server : ServerInfo
  id : String
  name : String
  status : String
  power_state : Int
  network : String × String
deriving DecidableEq, Repr

/-- Source lines 139-148: take the first network key and its first address;
on `IndexError` (no networks, or a network with no addresses) fall back to
empty strings. -/
def extractNetwork (networks : List (String × List String)) : String × String :=
  match networks with
  | [] => ("", "")
  | (network_id, addrs) :: _ =>
    match addrs with
    | [] => ("", "")
    | ip :: _ => (network_id, ip)

/-- `vm_status` (source lines 103-150): look the VM up by name via
`nova.servers.list(search_opts=\x7b'name': name\x7d)`; if the list is empty
return `None` (the absent sentinel), else normalize the first match. -/
def vm_status (listServers : String → List ServerInfo) (name : String) :
    Option StatusDict :=
  match listServers name with
  | [] => none
  | server :: _ =>
    some { server := server
           id := server.id
           name := name
           status := server.status
           power_state := server.power_state
           network := extractNetwork server.addresses }

/-- Outcome of one `vm_status` call as seen by a polling loop. -/
inductive QueryOutcome where
  | found (d : StatusDict)
  | absent
  | raised (e : PyExn)
deriving DecidableEq, Repr

/-- Mutating API calls the script can issue. -/
inductive Mutation where
  | createServer (name : String)
  | deleteServer (id : String)
  | startServer (id : String)
  | stopServer (id : String)
  | createImage (name : String)
  | uploadImage (id : String)
  | deleteImage (id : String)
deriving DecidableEq, Repr

/-- Observable events of a run. -/
inductive Event where
  | query (o : QueryOutcome)
  | sleep (secs : Nat)
  | probe (ip : String) (ok : Bool)
  | mutate (m : Mutation)
deriving DecidableEq, Repr

/-- How a run ended: normal return with payload, uncaught exception, or
still spinning when the fuel ran out. -/
inductive RunEnd (α : Type) where
  | ok (a : α)
  | exn (e : PyExn)
  | spin
deriving DecidableEq, Repr

def isMutate : Event → Bool
  | Event.mutate _ => true
  | _ => false

def numMutations (es : List Event) : Nat :=
  es.countP isMutate

/-- `vm_create`'s first loop (source lines 60-67):
`while status != 'ACTIVE'`, query `vm_status(name)['status']`; `except
TypeError: continue` (so an absent VM, or a raised `TypeError`, retries
immediately with no sleep); any other exception is uncaught; after a
successful query `time.sleep(1)` runs before the condition is re-checked.
`k` is the index of the next query; on success the payload is the next free
query index. -/
def waitActive (q : Nat → QueryOutcome) : Nat → Nat → List Event × RunEnd Nat
  | 0, _ => ([], RunEnd.spin)
  | fuel + 1, k =>
    match q k with
    | QueryOutcome.absent =>
      let r := waitActive q fuel (k + 1)
      (Event.query QueryOutcome.absent :: r.1, r.2)
    | QueryOutcome.raised e =>
      if e = PyExn.typeError then
        let r := waitActive q fuel (k + 1)
        (Event.query (QueryOutcome.raised e) :: r.1, r.2)
      else ([Event.query (QueryOutcome.raised e)], RunEnd.exn e)
    | QueryOutcome.found d =>
      if d.status = "ACTIVE" then
        ([Event.query (QueryOutcome.found d), Event.sleep 1], RunEnd.ok (k + 1))
      else
        let r := waitActive q fuel (k + 1)
        (Event.query (QueryOutcome.found d) :: Event.sleep 1 :: r.1, r.2)

/-- `vm_create`'s second loop (source lines 69-81): query the IP, ping it once;
a bare `except:` swallows every failure (absent VM, any raised exception, and a
failing ping, since `subprocess.check_call` raises on nonzero exit) and retries
immediately; only a fully successful iteration runs `time.sleep(2)` (and then
the loop exits, `ping_response` being true). `p` counts ping attempts; the
success payload is the next free query index and the pinged IP. -/
def waitPing (q : Nat → QueryOutcome) (ping : Nat → String → Bool) :
    Nat → Nat → Nat → List Event × RunEnd (Nat × String)
  | 0, _, _ => ([], RunEnd.spin)
  | fuel + 1, k, p =>
    match q k with
    | QueryOutcome.found d =>
      if ping p d.network.2 then
        ([Event.query (QueryOutcome.found d), Event.probe d.network.2 true,
          Event.sleep 2], RunEnd.ok (k + 1, d.network.2))
      else
        let r := waitPing q ping fuel (k + 1) (p + 1)
        (Event.query (QueryOutcome.found d) :: Event.probe d.network.2 false :: r.1,
         r.2)
    | o =>
      let r := waitPing q ping fuel (k + 1) p
      (Event.query o :: r.1, r.2)

/-- `vm_create` (source lines 34-82): issue `nova.servers.create` (the image,
flavor and network lookups that precede it are resolved by the environment and
not modelled), then run the two waits in sequence over the same query stream.
Success payload: the index reached after the status wait, the index reached
after the ping wait, and the pinged IP. -/
def vm_create (name : String) (q : Nat → QueryOutcome)
    (ping : Nat → String → Bool) (fuel : Nat) :
    List Event × RunEnd (Nat × Nat × String) :=
  let pre := [Event.mutate (Mutation.createServer name)]
  match waitActive q fuel 0 with
  | (es1, RunEnd.ok k1) =>
    match waitPing q ping fuel k1 0 with
    | (es2, RunEnd.ok (k2, ip)) => (pre ++ es1 ++ es2, RunEnd.ok (k1, k2, ip))
    | (es2, RunEnd.exn e) => (pre ++ es1 ++ es2, RunEnd.exn e)
    | (es2, RunEnd.spin) => (pre ++ es1 ++ es2, RunEnd.spin)
  | (es1, RunEnd.exn e) => (pre ++ es1, RunEnd.exn e)
  | (es1, RunEnd.spin) => (pre ++ es1, RunEnd.spin)

/-- `vm_delete`'s absence wait (source lines 95-100): `while True`, subscript
`vm_status(name)['server']`; on `TypeError` (absent VM) return; a dict loops
again with NO `time.sleep` anywhere in the loop; any other exception is
uncaught. -/
def deleteWait (q : Nat → QueryOutcome) : Nat → Nat → List Event × RunEnd Nat
  | 0, _ => ([], RunEnd.spin)
  | fuel + 1, k =>
    match q k with
    | QueryOutcome.absent => ([Event.query QueryOutcome.absent], RunEnd.ok (k + 1))
    | QueryOutcome.raised e =>
      if e = PyExn.typeError then
        ([Event.query (QueryOutcome.raised e)], RunEnd.ok (k + 1))
      else ([Event.query (QueryOutcome.raised e)], RunEnd.exn e)
    | QueryOutcome.found d =>
      let r := deleteWait q fuel (k + 1)
      (Event.query (QueryOutcome.found d) :: r.1, r.2)

/-- `vm_delete` (source lines 85-100): try `vm_status(name)['server'].delete()`,
`except TypeError: pass` (absent VM: the delete request is skipped), then run
the absence wait. -/
def vm_delete (q : Nat → QueryOutcome) (fuel : Nat) : List Event × RunEnd Nat :=
  match q 0 with
  | QueryOutcome.found d =>
    let r := deleteWait q fuel 1
    (Event.query (QueryOutcome.found d) ::
      Event.mutate (Mutation.deleteServer d.id) :: r.1, r.2)
  | QueryOutcome.absent =>
    let r := deleteWait q fuel 1
    (Event.query QueryOutcome.absent :: r.1, r.2)
  | QueryOutcome.raised e =>
    if e = PyExn.typeError then
      let r := deleteWait q fuel 1
      (Event.query (QueryOutcome.raised e) :: r.1, r.2)
    else ([Event.query (QueryOutcome.raised e)], RunEnd.exn e)

/-- `vm_stop`'s wait (source lines 161-162):
`while vm_status(name)['power_state'] == 1: time.sleep(1)`. There is no
`try` here: an absent VM raises an uncaught `TypeError`, and any raised
exception is uncaught. -/
def stopWait (q : Nat → QueryOutcome) : Nat → Nat → List Event × RunEnd Nat
  | 0, _ => ([], RunEnd.spin)
  | fuel + 1, k =>
    match q k with
    | QueryOutcome.absent =>
      ([Event.query QueryOutcome.absent], RunEnd.exn PyExn.typeError)
    | QueryOutcome.raised e => ([Event.query (QueryOutcome.raised e)], RunEnd.exn e)
    | QueryOutcome.found d =>
      if d.power_state = 1 then
        let r := stopWait q fuel (k + 1)
        (Event.query (QueryOutcome.found d) :: Event.sleep 1 :: r.1, r.2)
      else ([Event.query (QueryOutcome.found d)], RunEnd.ok (k + 1))

/-- `vm_start`'s wait (source lines 173-174):
`while vm_status(name)['power_state'] != 1: time.sleep(1)`; no `try`. -/
def startWait (q : Nat → QueryOutcome) : Nat → Nat → List Event × RunEnd Nat
  | 0, _ => ([], RunEnd.spin)
  | fuel + 1, k =>
    match q k with
    | QueryOutcome.absent =>
      ([Event.query QueryOutcome.absent], RunEnd.exn PyExn.typeError)
    | QueryOutcome.raised e => ([Event.query (QueryOutcome.raised e)], RunEnd.exn e)
    | QueryOutcome.found d =>
      if d.power_state = 1 then ([Event.query (QueryOutcome.found d)], RunEnd.ok (k + 1))
      else
        let r := startWait q fuel (k + 1)
        (Event.query (QueryOutcome.found d) :: Event.sleep 1 :: r.1, r.2)

/-- `vm_stop` (source lines 153-163): `vm_info = vm_status(name)`; subscripting
it raises an uncaught `TypeError` when the VM is absent; if
`power_state == 1`, call `server.stop()` and poll, else return at once. -/
def vm_stop (q : Nat → QueryOutcome) (fuel : Nat) : List Event × RunEnd Unit :=
  match q 0 with
  | QueryOutcome.absent =>
    ([Event.query QueryOutcome.absent], RunEnd.exn PyExn.typeError)
  | QueryOutcome.raised e => ([Event.query (QueryOutcome.raised e)], RunEnd.exn e)
  | QueryOutcome.found d =>
    if d.power_state = 1 then
      let r := stopWait q fuel 1
      (Event.query (QueryOutcome.found d) ::
        Event.mutate (Mutation.stopServer d.id) :: r.1,
       match r.2 with
       | RunEnd.ok _ => RunEnd.ok ()
       | RunEnd.exn e => RunEnd.exn e
       | RunEnd.spin => RunEnd.spin)
    else ([Event.query (QueryOutcome.found d)], RunEnd.ok ())

/-- `vm_start` (source lines 166-175): symmetric to `vm_stop`: if
`power_state != 1`, call `server.start()` and poll, else return at once;
subscripting the absent sentinel raises an uncaught `TypeError`. -/
def vm_start (q : Nat → QueryOutcome) (fuel : Nat) : List Event × RunEnd Unit :=
  match q 0 with
  | QueryOutcome.absent =>
    ([Event.query QueryOutcome.absent], RunEnd.exn PyExn.typeError)
  | QueryOutcome.raised e => ([Event.query (QueryOutcome.raised e)], RunEnd.exn e)
  | QueryOutcome.found d =>
    if d.power_state = 1 then ([Event.query (QueryOutcome.found d)], RunEnd.ok ())
    else
      let r := startWait q fuel 1
      (Event.query (QueryOutcome.found d) ::
        Event.mutate (Mutation.startServer d.id) :: r.1,
       match r.2 with
       | RunEnd.ok _ => RunEnd.ok ()
       | RunEnd.exn e => RunEnd.exn e
       | RunEnd.spin => RunEnd.spin)

/-- An image as found by `nova.images.find`. -/
structure ImageInfo where
  id : String
deriving DecidableEq, Repr

/-- `image_delete` (source lines 195-198): `nova.images.find(name=name)`
raises `NotFound` when no image by that name exists (so no deletion request is
issued); otherwise `glance.images.delete(image.id)`. -/
def image_delete (findImage : String → Option ImageInfo) (name : String) :
    List Event × RunEnd Unit :=
  match findImage name with
  | none => ([], RunEnd.exn PyExn.notFound)
  | some image => ([Event.mutate (Mutation.deleteImage image.id)], RunEnd.ok ())

/-- `image_upload` (source lines 178-192): first try `image_delete(name)`,
`except NotFound: pass`; then `glance.images.create(...)` followed by
`glance.images.upload(image.id, fimage, 'rb')` streaming the local file
(`newImageId` is the id glance assigns to the fresh image; opening the local
file is resolved by the environment and not modelled). -/
def image_upload (findImage : String → Option ImageInfo) (name : String)
    (newImageId : String) : List Event × RunEnd Unit :=
  match image_delete findImage name with
  | (es, RunEnd.ok _) =>
    (es ++ [Event.mutate (Mutation.createImage name),
            Event.mutate (Mutation.uploadImage newImageId)], RunEnd.ok ())
  | (es, RunEnd.exn PyExn.notFound) =>
    (es ++ [Event.mutate (Mutation.createImage name),
            Event.mutate (Mutation.uploadImage newImageId)], RunEnd.ok ())
  | (es, RunEnd.exn e) => (es, RunEnd.exn e)
  | (es, RunEnd.spin) => (es, RunEnd.spin)

/-- The `--create` branch of `main` (source lines 250-253): run `vm_create`,
then `print vm_status(args.name)['network'][1]` — one more status query on the
same stream; subscripting an absent sentinel there raises `TypeError`. The
success payload is the printed string. -/
def mainCreate (name : String) (q : Nat → QueryOutcome)
    (ping : Nat → String → Bool) (fuel : Nat) : List Event × RunEnd String :=
  match vm_create name q ping fuel with
  | (es, RunEnd.ok (_, k2, _)) =>
    match q k2 with
    | QueryOutcome.found d =>
      (es ++ [Event.query (QueryOutcome.found d)], RunEnd.ok d.network.2)
    | QueryOutcome.absent =>
      (es ++ [Event.query QueryOutcome.absent], RunEnd.exn PyExn.typeError)
    | QueryOutcome.raised e =>
      (es ++ [Event.query (QueryOutcome.raised e)], RunEnd.exn e)
  | (es, RunEnd.exn e) => (es, RunEnd.exn e)
  | (es, RunEnd.spin) => (es, RunEnd.spin)

/-! ### Trace predicates -/

def isSleep : Event → Bool
  | Event.sleep _ => true
  | _ => false

def isQuery : Event → Bool
  | Event.query _ => true
  | _ => false

/-- Every sleep event in the list has duration `n`. -/
def sleepsAre (n : Nat) (es : List Event) : Bool :=
  es.all fun e =>
    match e with
    | Event.sleep m => m == n
    | _ => true

/-- `pending` records that a query has been seen with no sleep since; the scan
fails exactly when two query events occur with no sleep event between them. -/
def sleepSeparatedAux : Bool → List Event → Bool
  | _, [] => true
  | pending, Event.query _ :: rest =>
    if pending then false else sleepSeparatedAux true rest
  | _, Event.sleep _ :: rest => sleepSeparatedAux false rest
  | pending, _ :: rest => sleepSeparatedAux pending rest

/-- Any two consecutive query events have at least one sleep between them. -/
def sleepSeparated (es : List Event) : Bool :=
  sleepSeparatedAux false es

/-- Every successful (`found`) query is immediately followed by a 1-second
sleep, and sleeps occur nowhere else (so failed queries retry with no sleep). -/
def foundSleeps1 : List Event → Bool
  | [] => true
  | Event.query (QueryOutcome.found _) :: Event.sleep 1 :: rest => foundSleeps1 rest
  | Event.query (QueryOutcome.found _) :: _ => false
  | Event.sleep _ :: _ => false
  | _ :: rest => foundSleeps1 rest

/-- Every successful probe is immediately followed by a 2-second sleep, and
sleeps occur nowhere else (so failed iterations retry with no sleep). -/
def sleepsAfterProbe : List Event → Bool
  | [] => true
  | Event.probe _ true :: Event.sleep 2 :: rest => sleepsAfterProbe rest
  | Event.probe _ true :: _ => false
  | Event.sleep _ :: _ => false
  | _ :: rest => sleepsAfterProbe rest

/-! ### Concrete fixtures used by witnesses and counterexamples -/

def srvActive : ServerInfo :=
  { id := "id1", status := "ACTIVE", power_state := 1,
    addresses := [("net", ["10.0.0.5"])] }

def dActive : StatusDict :=
  { server := srvActive, id := "id1", name := "vm", status := "ACTIVE",
    power_state := 1, network := ("net", "10.0.0.5") }

def dStopped : StatusDict :=
  { server := srvActive, id := "id1", name := "vm", status := "SHUTOFF",
    power_state := 0, network := ("net", "10.0.0.5") }

def img1 : ImageInfo := { id := "id9" }

/-- A trace on which the VM is present for two queries, then gone. -/
def cq4 : Nat → QueryOutcome :=
  fun k => if k < 2 then QueryOutcome.found dActive else QueryOutcome.absent

/-- A trace on which every status query raises a non-TypeError exception. -/
def cq5 : Nat → QueryOutcome := fun _ => QueryOutcome.raised PyExn.other

/-- A trace on which every status query raises TypeError. -/
def cq5te : Nat → QueryOutcome := fun _ => QueryOutcome.raised PyExn.typeError

/-! ### Shared helper lemmas -/

/-- On a trace where the VM is always absent, `vm_delete` makes exactly two
status queries (the skipped delete attempt and one absence check) and returns;
shared by several claims. -/
theorem vm_delete_allAbsent (q : Nat → QueryOutcome) (fuel : Nat)
    (hq : ∀ k, q k = QueryOutcome.absent) :
    vm_delete q (fuel + 1) =
      ([Event.query QueryOutcome.absent, Event.query QueryOutcome.absent],
       RunEnd.ok 2) := by
  simp [vm_delete, deleteWait, hq 0, hq 1]

/-! ### Claims -/

/-- Claim C2: for every VM name for which the status query returns the absent
sentinel, `vm_delete` issues zero mutation calls (no delete request is sent)
and returns immediately — here: exactly the two status queries, no other
event, normal return. -/
theorem vm_delete_absent_is_noop (q : Nat → QueryOutcome) (fuel : Nat)
    (hq : ∀ k, q k = QueryOutcome.absent) :
    (vm_delete q (fuel + 1)).2 = RunEnd.ok 2 ∧
    numMutations (vm_delete q (fuel + 1)).1 = 0 ∧
    (vm_delete q (fuel + 1)).1 =
      [Event.query QueryOutcome.absent, Event.query QueryOutcome.absent] := by
  rw [vm_delete_allAbsent q fuel hq]
  exact ⟨rfl, rfl, rfl⟩

theorem vm_delete_absent_is_noop_witness :
    (vm_delete (fun _ => QueryOutcome.absent) 1).2 = RunEnd.ok 2 ∧
    numMutations (vm_delete (fun _ => QueryOutcome.absent) 1).1 = 0 ∧
    (vm_delete (fun _ => QueryOutcome.absent) 1).1 =
      [Event.query QueryOutcome.absent, Event.query QueryOutcome.absent] :=
  vm_delete_absent_is_noop (fun _ => QueryOutcome.absent) 0 (fun _ => rfl)

/-- Claim C3: `vm_start` on a running VM (power state 1) issues zero mutation
calls and returns without polling (its trace is the single status query), and
`vm_stop` on a VM that is not running does the same. -/
theorem start_stop_already_there_noop (q : Nat → QueryOutcome) (fuel : Nat)
    (d : StatusDict) (hq : q 0 = QueryOutcome.found d) :
    (d.power_state = 1 →
      vm_start q fuel = ([Event.query (QueryOutcome.found d)], RunEnd.ok ())) ∧
    (d.power_state ≠ 1 →
      vm_stop q fuel = ([Event.query (QueryOutcome.found d)], RunEnd.ok ())) := by
  constructor
  · intro h
    simp [vm_start, hq, h]
  · intro h
    simp [vm_stop, hq, h]

theorem start_stop_already_there_noop_witness :
    vm_start (fun _ => QueryOutcome.found dActive) 3 =
      ([Event.query (QueryOutcome.found dActive)], RunEnd.ok ()) ∧
    vm_stop (fun _ => QueryOutcome.found dStopped) 3 =
      ([Event.query (QueryOutcome.found dStopped)], RunEnd.ok ()) :=
  ⟨(start_stop_already_there_noop (fun _ => QueryOutcome.found dActive) 3 dActive
      rfl).1 rfl,
   (start_stop_already_there_noop (fun _ => QueryOutcome.found dStopped) 3 dStopped
      rfl).2 (by decide)⟩

/-- Claim C6: for every VM name for which the remote API lists no server,
`vm_status` returns the absent sentinel (`none`) rather than raising. -/
theorem vm_status_absent_sentinel (listServers : String → List ServerInfo)
    (name : String) (h : listServers name = []) :
    vm_status listServers name = none := by
  simp [vm_status, h]

theorem vm_status_absent_sentinel_witness :
    vm_status (fun _ => []) "vm" = none :=
  vm_status_absent_sentinel (fun _ => []) "vm" rfl

/-- Claim C8: `image_delete` for a nonexistent image name raises `NotFound`,
which propagates to the caller, and no deletion request is issued (the trace
is empty, in particular free of mutations). -/
theorem image_delete_notfound_propagates (findImage : String → Option ImageInfo)
    (name : String) (h : findImage name = none) :
    image_delete findImage name = ([], RunEnd.exn PyExn.notFound) ∧
    numMutations (image_delete findImage name).1 = 0 := by
  simp [image_delete, h, numMutations]

theorem image_delete_notfound_propagates_witness :
    image_delete (fun _ => none) "img" = ([], RunEnd.exn PyExn.notFound) ∧
    numMutations (image_delete (fun _ => none) "img").1 = 0 :=
  image_delete_notfound_propagates (fun _ => none) "img" rfl

/-- Claim C7: `image_upload` always succeeds; when an image of the name
exists its deletion is issued strictly before the new image is created and
the file streamed to it, and when none exists the `NotFound` of the
pre-delete is swallowed and the upload proceeds. -/
theorem image_upload_overwrites (findImage : String → Option ImageInfo)
    (name : String) (newImageId : String) :
    (image_upload findImage name newImageId).2 = RunEnd.ok () ∧
    (∀ img, findImage name = some img →
      (image_upload findImage name newImageId).1 =
        [Event.mutate (Mutation.deleteImage img.id),
         Event.mutate (Mutation.createImage name),
         Event.mutate (Mutation.uploadImage newImageId)]) ∧
    (findImage name = none →
      (image_upload findImage name newImageId).1 =
        [Event.mutate (Mutation.createImage name),
         Event.mutate (Mutation.uploadImage newImageId)]) := by
  cases h : findImage name <;>
    simp [image_upload, image_delete, h]

theorem image_upload_overwrites_witness :
    (image_upload (fun _ => some img1) "img" "new1").1 =
      [Event.mutate (Mutation.deleteImage img1.id),
       Event.mutate (Mutation.createImage "img"),
       Event.mutate (Mutation.uploadImage "new1")] ∧
    (image_upload (fun _ => none) "img" "new1").1 =
      [Event.mutate (Mutation.createImage "img"),
       Event.mutate (Mutation.uploadImage "new1")] :=
  ⟨(image_upload_overwrites (fun _ => some img1) "img" "new1").2.1 img1 rfl,
   (image_upload_overwrites (fun _ => none) "img" "new1").2.2 rfl⟩

/-- Claim C10: on a trace where the VM is absent, `vm_stop` and `vm_start`
raise an uncaught `TypeError` after the first status query (no no-op return,
no polling, no mutation), whereas `vm_delete` on the same trace returns
normally. -/
theorem start_stop_absent_typeerror (q : Nat → QueryOutcome) (fuel : Nat)
    (hq : ∀ k, q k = QueryOutcome.absent) :
    vm_stop q fuel =
      ([Event.query QueryOutcome.absent], RunEnd.exn PyExn.typeError) ∧
    vm_start q fuel =
      ([Event.query QueryOutcome.absent], RunEnd.exn PyExn.typeError) ∧
    (vm_delete q (fuel + 1)).2 = RunEnd.ok 2 := by
  refine ⟨by simp [vm_stop, hq 0], by simp [vm_start, hq 0], ?_⟩
  rw [vm_delete_allAbsent q fuel hq]

theorem start_stop_absent_typeerror_witness :
    vm_stop (fun _ => QueryOutcome.absent) 2 =
      ([Event.query QueryOutcome.absent], RunEnd.exn PyExn.typeError) ∧
    vm_start (fun _ => QueryOutcome.absent) 2 =
      ([Event.query QueryOutcome.absent], RunEnd.exn PyExn.typeError) ∧
    (vm_delete (fun _ => QueryOutcome.absent) 3).2 = RunEnd.ok 2 :=
  start_stop_absent_typeerror (fun _ => QueryOutcome.absent) 2 (fun _ => rfl)

/-! ### Claim C4: polling cadence -/

/-- Counterexample to claim C4: `vm_delete` on `cq4` completes a run that
makes three status queries, contains not a single sleep event, and in
particular re-queries twice with no sleep in between — the absence wait
(source lines 96-100) has no `time.sleep` at all. -/
theorem polling_cadence_cex :
    (vm_delete cq4 2).2 = RunEnd.ok 3 ∧
    (vm_delete cq4 2).1.countP isQuery = 3 ∧
    (vm_delete cq4 2).1.countP isSleep = 0 ∧
    sleepSeparated (vm_delete cq4 2).1 = false := by
  refine ⟨rfl, rfl, rfl, rfl⟩

theorem foundSleeps1_cons_absent (l : List Event) :
    foundSleeps1 (Event.query QueryOutcome.absent :: l) = foundSleeps1 l := rfl

theorem foundSleeps1_cons_raised (e : PyExn) (l : List Event) :
    foundSleeps1 (Event.query (QueryOutcome.raised e) :: l) = foundSleeps1 l := rfl

theorem foundSleeps1_cons_found (d : StatusDict) (l : List Event) :
    foundSleeps1 (Event.query (QueryOutcome.found d) :: Event.sleep 1 :: l) =
      foundSleeps1 l := rfl

theorem helper_waitActive_foundSleeps1 (q : Nat → QueryOutcome) :
    ∀ fuel k, foundSleeps1 (waitActive q fuel k).1 = true := by
  intro fuel
  induction fuel with
  | zero => intro k; rfl
  | succ n ih =>
    intro k
    cases hq : q k with
    | absent => simp [waitActive, hq, foundSleeps1_cons_absent, ih]
    | raised e =>
      by_cases he : e = PyExn.typeError
      · simp [waitActive, hq, he, foundSleeps1_cons_raised, ih]
      · simp [waitActive, hq, he, foundSleeps1_cons_raised, foundSleeps1]
    | found d =>
      by_cases hs : d.status = "ACTIVE"
      · simp [waitActive, hq, hs, foundSleeps1_cons_found, foundSleeps1]
      · simp [waitActive, hq, hs, foundSleeps1_cons_found, ih]

theorem sleepsAfterProbe_cons_query (o : QueryOutcome) (l : List Event) :
    sleepsAfterProbe (Event.query o :: l) = sleepsAfterProbe l := rfl

theorem sleepsAfterProbe_cons_failProbe (ip : String) (l : List Event) :
    sleepsAfterProbe (Event.probe ip false :: l) = sleepsAfterProbe l := rfl

theorem helper_waitPing_sleepsAfterProbe (q : Nat → QueryOutcome)
    (ping : Nat → String → Bool) :
    ∀ fuel k p, sleepsAfterProbe (waitPing q ping fuel k p).1 = true := by
  intro fuel
  induction fuel with
  | zero => intro k p; rfl
  | succ n ih =>
    intro k p
    cases hq : q k with
    | absent => simp [waitPing, hq, sleepsAfterProbe_cons_query, ih]
    | raised e => simp [waitPing, hq, sleepsAfterProbe_cons_query, ih]
    | found d =>
      by_cases hp : ping p d.network.2 = true
      · simp [waitPing, hq, hp, sleepsAfterProbe_cons_query, sleepsAfterProbe]
      · simp [waitPing, hq, hp, sleepsAfterProbe_cons_query,
              sleepsAfterProbe_cons_failProbe, ih]

theorem sleepSeparatedAux_cons_query (b : Bool) (o : QueryOutcome) (l : List Event) :
    sleepSeparatedAux b (Event.query o :: l) =
      if b then false else sleepSeparatedAux true l := rfl

theorem sleepSeparatedAux_cons_sleep (b : Bool) (n : Nat) (l : List Event) :
    sleepSeparatedAux b (Event.sleep n :: l) = sleepSeparatedAux false l := rfl

theorem helper_stopWait_cadence (q : Nat → QueryOutcome) :
    ∀ fuel k, sleepSeparated (stopWait q fuel k).1 = true ∧
      sleepsAre 1 (stopWait q fuel k).1 = true := by
  intro fuel
  induction fuel with
  | zero => intro k; exact ⟨rfl, rfl⟩
  | succ n ih =>
    intro k
    cases hq : q k with
    | absent => exact ⟨by simp [stopWait, hq, sleepSeparated, sleepSeparatedAux],
                       by simp [stopWait, hq, sleepsAre]⟩
    | raised e => exact ⟨by simp [stopWait, hq, sleepSeparated, sleepSeparatedAux],
                         by simp [stopWait, hq, sleepsAre]⟩
    | found d =>
      by_cases hs : d.power_state = 1
      · refine ⟨?_, ?_⟩
        · have := (ih (k + 1)).1
          simp only [stopWait, hq, hs, if_pos, sleepSeparated,
            sleepSeparatedAux_cons_query, sleepSeparatedAux_cons_sleep] at this ⊢
          simpa using this
        · have := (ih (k + 1)).2
          simp only [stopWait, hq, hs, if_pos, sleepsAre, List.all_cons] at this ⊢
          simpa using this
      · exact ⟨by simp [stopWait, hq, hs, sleepSeparated, sleepSeparatedAux],
               by simp [stopWait, hq, hs, sleepsAre]⟩

theorem helper_startWait_cadence (q : Nat → QueryOutcome) :
    ∀ fuel k, sleepSeparated (startWait q fuel k).1 = true ∧
      sleepsAre 1 (startWait q fuel k).1 = true := by
  intro fuel
  induction fuel with
  | zero => intro k; exact ⟨rfl, rfl⟩
  | succ n ih =>
    intro k
    cases hq : q k with
    | absent => exact ⟨by simp [startWait, hq, sleepSeparated, sleepSeparatedAux],
                       by simp [startWait, hq, sleepsAre]⟩
    | raised e => exact ⟨by simp [startWait, hq, sleepSeparated, sleepSeparatedAux],
                         by simp [startWait, hq, sleepsAre]⟩
    | found d =>
      by_cases hs : d.power_state = 1
      · exact ⟨by simp [startWait, hq, hs, sleepSeparated, sleepSeparatedAux],
               by simp [startWait, hq, hs, sleepsAre]⟩
      · refine ⟨?_, ?_⟩
        · have := (ih (k + 1)).1
          simp only [startWait, hq, hs, if_neg, sleepSeparated,
            sleepSeparatedAux_cons_query, sleepSeparatedAux_cons_sleep] at this ⊢
          simpa using this
        · have := (ih (k + 1)).2
          simp only [startWait, hq, hs, if_neg, sleepsAre, List.all_cons] at this ⊢
          simpa using this

theorem helper_deleteWait_no_sleep (q : Nat → QueryOutcome) :
    ∀ fuel k, (deleteWait q fuel k).1.countP isSleep = 0 := by
  intro fuel
  induction fuel with
  | zero => intro k; rfl
  | succ n ih =>
    intro k
    cases hq : q k with
    | absent => simp [deleteWait, hq, List.countP_cons, isSleep]
    | raised e =>
      by_cases he : e = PyExn.typeError <;>
        simp [deleteWait, hq, he, List.countP_cons, isSleep]
    | found d => simp [deleteWait, hq, List.countP_cons, isSleep, ih]

/-- Claim C4, amended: failed queries are retried with no intervening sleep
and `vm_delete`'s absence wait never sleeps at all; otherwise the cadence is
as claimed: create's status wait sleeps a fixed 1 second after every
successful status query, create's reachability wait sleeps a fixed 2 seconds
only after the successful liveness probe, and start's and stop's power-state
waits separate consecutive queries by a fixed 1-second sleep. -/
theorem polling_cadence_amended (q : Nat → QueryOutcome)
    (ping : Nat → String → Bool) (fuel k p : Nat) :
    foundSleeps1 (waitActive q fuel k).1 = true ∧
    sleepsAfterProbe (waitPing q ping fuel k p).1 = true ∧
    sleepSeparated (stopWait q fuel k).1 = true ∧
    sleepsAre 1 (stopWait q fuel k).1 = true ∧
    sleepSeparated (startWait q fuel k).1 = true ∧
    sleepsAre 1 (startWait q fuel k).1 = true ∧
    (deleteWait q fuel k).1.countP isSleep = 0 :=
  ⟨helper_waitActive_foundSleeps1 q fuel k,
   helper_waitPing_sleepsAfterProbe q ping fuel k p,
   (helper_stopWait_cadence q fuel k).1,
   (helper_stopWait_cadence q fuel k).2,
   (helper_startWait_cadence q fuel k).1,
   (helper_startWait_cadence q fuel k).2,
   helper_deleteWait_no_sleep q fuel k⟩

/-! ### Claim C5: exception handling during polling -/

/-- Counterexample to claim C5: on a trace whose first status query raises a
non-TypeError exception (e.g. an auth or network error), `vm_create`'s status
wait does not swallow it and retry — the loop makes exactly one query and the
exception propagates out of `vm_create`. -/
theorem polling_swallow_cex :
    (vm_create "vm" cq5 (fun _ _ => true) 5).2 = RunEnd.exn PyExn.other ∧
    (waitActive cq5 5 0).1 = [Event.query (QueryOutcome.raised PyExn.other)] := by
  exact ⟨rfl, rfl⟩

/-- Claim C5, amended: in create's status-wait loop only `TypeError` (the
failure mode of the absent sentinel) is swallowed and treated as not yet
satisfied, retrying immediately; any other exception raised by the status
query propagates out of the loop; in create's reachability loop every
exception is swallowed and the loop retries. -/
theorem polling_swallow_amended (q : Nat → QueryOutcome)
    (ping : Nat → String → Bool) (fuel k p : Nat) (e : PyExn) :
    (q k = QueryOutcome.raised PyExn.typeError →
      waitActive q (fuel + 1) k =
        (Event.query (QueryOutcome.raised PyExn.typeError) ::
           (waitActive q fuel (k + 1)).1,
         (waitActive q fuel (k + 1)).2)) ∧
    (q k = QueryOutcome.raised e → e ≠ PyExn.typeError →
      waitActive q (fuel + 1) k =
        ([Event.query (QueryOutcome.raised e)], RunEnd.exn e)) ∧
    (q k = QueryOutcome.raised e →
      waitPing q ping (fuel + 1) k p =
        (Event.query (QueryOutcome.raised e) :: (waitPing q ping fuel (k + 1) p).1,
         (waitPing q ping fuel (k + 1) p).2)) := by
  refine ⟨fun h => ?_, fun h he => ?_, fun h => ?_⟩
  · simp [waitActive, h]
  · simp [waitActive, h, he]
  · simp [waitPing, h]

theorem polling_swallow_amended_witness :
    waitActive cq5te 2 0 =
      (Event.query (QueryOutcome.raised PyExn.typeError) :: (waitActive cq5te 1 1).1,
       (waitActive cq5te 1 1).2) ∧
    waitActive cq5 2 0 =
      ([Event.query (QueryOutcome.raised PyExn.other)], RunEnd.exn PyExn.other) ∧
    waitPing cq5 (fun _ _ => true) 2 0 0 =
      (Event.query (QueryOutcome.raised PyExn.other) ::
         (waitPing cq5 (fun _ _ => true) 1 1 0).1,
       (waitPing cq5 (fun _ _ => true) 1 1 0).2) :=
  ⟨(polling_swallow_amended cq5te (fun _ _ => true) 1 0 0 PyExn.other).1 rfl,
   (polling_swallow_amended cq5 (fun _ _ => true) 1 0 0 PyExn.other).2.1 rfl
     (by decide),
   (polling_swallow_amended cq5 (fun _ _ => true) 1 0 0 PyExn.other).2.2 rfl⟩

/-! ### Claim C9: unbounded polling, no timeout -/

theorem helper_waitActive_terminates (q : Nat → QueryOutcome)
    (hb : ∀ i e, q i ≠ QueryOutcome.raised e) :
    ∀ m k, (∃ d, q (k + m) = QueryOutcome.found d ∧ d.status = "ACTIVE") →
      ∃ fuel es k2, waitActive q fuel k = (es, RunEnd.ok k2) := by
  intro m
  induction m with
  | zero =>
    intro k ⟨d, hd, hs⟩
    rw [Nat.add_zero] at hd
    exact ⟨1, [Event.query (QueryOutcome.found d), Event.sleep 1], k + 1,
      by simp [waitActive, hd, hs]⟩
  | succ n ih =>
    intro k ⟨d, hd, hs⟩
    have hshift : k + 1 + n = k + (n + 1) := by omega
    cases hq : q k with
    | absent =>
      obtain ⟨fuel, es, k2, heq⟩ := ih (k + 1) ⟨d, by rw [hshift]; exact hd, hs⟩
      exact ⟨fuel + 1, Event.query QueryOutcome.absent :: es, k2,
        by simp [waitActive, hq, heq]⟩
    | raised e => exact absurd hq (hb k e)
    | found d0 =>
      by_cases hs0 : d0.status = "ACTIVE"
      · exact ⟨1, [Event.query (QueryOutcome.found d0), Event.sleep 1], k + 1,
          by simp [waitActive, hq, hs0]⟩
      · obtain ⟨fuel, es, k2, heq⟩ := ih (k + 1) ⟨d, by rw [hshift]; exact hd, hs⟩
        exact ⟨fuel + 1,
          Event.query (QueryOutcome.found d0) :: Event.sleep 1 :: es, k2,
          by simp [waitActive, hq, hs0, heq]⟩

theorem helper_waitActive_spins (q : Nat → QueryOutcome)
    (hb : ∀ i e, q i ≠ QueryOutcome.raised e)
    (hno : ∀ i d, q i = QueryOutcome.found d → d.status ≠ "ACTIVE") :
    ∀ fuel k, (waitActive q fuel k).2 = RunEnd.spin := by
  intro fuel
  induction fuel with
  | zero => intro k; rfl
  | succ n ih =>
    intro k
    cases hq : q k with
    | absent => simp [waitActive, hq, ih]
    | raised e => exact absurd hq (hb k e)
    | found d => simp [waitActive, hq, hno k d hq, ih]

theorem helper_deleteWait_terminates (q : Nat → QueryOutcome)
    (hb : ∀ i e, q i ≠ QueryOutcome.raised e) :
    ∀ m k, q (k + m) = QueryOutcome.absent →
      ∃ fuel es k2, deleteWait q fuel k = (es, RunEnd.ok k2) := by
  intro m
  induction m with
  | zero =>
    intro k hd
    rw [Nat.add_zero] at hd
    exact ⟨1, [Event.query QueryOutcome.absent], k + 1, by simp [deleteWait, hd]⟩
  | succ n ih =>
    intro k hd
    have hshift : k + 1 + n = k + (n + 1) := by omega
    cases hq : q k with
    | absent =>
      exact ⟨1, [Event.query QueryOutcome.absent], k + 1, by simp [deleteWait, hq]⟩
    | raised e => exact absurd hq (hb k e)
    | found d0 =>
      obtain ⟨fuel, es, k2, heq⟩ := ih (k + 1) (by rw [hshift]; exact hd)
      exact ⟨fuel + 1, Event.query (QueryOutcome.found d0) :: es, k2,
        by simp [deleteWait, hq, heq]⟩

theorem helper_deleteWait_spins (q : Nat → QueryOutcome)
    (hb : ∀ i e, q i ≠ QueryOutcome.raised e)
    (hno : ∀ i, q i ≠ QueryOutcome.absent) :
    ∀ fuel k, (deleteWait q fuel k).2 = RunEnd.spin := by
  intro fuel
  induction fuel with
  | zero => intro k; rfl
  | succ n ih =>
    intro k
    cases hq : q k with
    | absent => exact absurd hq (hno k)
    | raised e => exact absurd hq (hb k e)
    | found d => simp [deleteWait, hq, ih]

/-- Claim C9: the polling loops have no timeout. On any exception-free query
trace: if the target predicate (`status == ACTIVE` for create's status wait,
absence for delete's wait) eventually holds, the loop returns given enough
fuel; if it never holds, the loop is still spinning after any amount of fuel,
i.e. it never returns. -/
theorem polling_no_timeout (q : Nat → QueryOutcome) (k : Nat)
    (hb : ∀ i e, q i ≠ QueryOutcome.raised e) :
    ((∃ i, k ≤ i ∧ ∃ d, q i = QueryOutcome.found d ∧ d.status = "ACTIVE") →
      ∃ fuel es k2, waitActive q fuel k = (es, RunEnd.ok k2)) ∧
    ((∀ i d, q i = QueryOutcome.found d → d.status ≠ "ACTIVE") →
      ∀ fuel, (waitActive q fuel k).2 = RunEnd.spin) ∧
    ((∃ i, k ≤ i ∧ q i = QueryOutcome.absent) →
      ∃ fuel es k2, deleteWait q fuel k = (es, RunEnd.ok k2)) ∧
    ((∀ i, q i ≠ QueryOutcome.absent) →
      ∀ fuel, (deleteWait q fuel k).2 = RunEnd.spin) := by
  refine ⟨?_, ?_, ?_, ?_⟩
  · rintro ⟨i, hki, d, hd, hs⟩
    have hik : k + (i - k) = i := by omega
    exact helper_waitActive_terminates q hb (i - k) k ⟨d, by rw [hik]; exact hd, hs⟩
  · intro hno fuel
    exact helper_waitActive_spins q hb hno fuel k
  · rintro ⟨i, hki, hd⟩
    have hik : k + (i - k) = i := by omega
    exact helper_deleteWait_terminates q hb (i - k) k (by rw [hik]; exact hd)
  · intro hno fuel
    exact helper_deleteWait_spins q hb hno fuel k

theorem polling_no_timeout_witness :
    (∃ fuel es k2,
      deleteWait (fun _ => QueryOutcome.absent) fuel 0 = (es, RunEnd.ok k2)) ∧
    (∀ fuel, (waitActive (fun _ => QueryOutcome.absent) fuel 0).2 = RunEnd.spin) :=
  ⟨(polling_no_timeout (fun _ => QueryOutcome.absent) 0
      (fun _ _ h => QueryOutcome.noConfusion h)).2.2.1
      ⟨0, Nat.le_refl 0, rfl⟩,
   (polling_no_timeout (fun _ => QueryOutcome.absent) 0
      (fun _ _ h => QueryOutcome.noConfusion h)).2.1
      (fun _ _ h => QueryOutcome.noConfusion h)⟩

/-! ### Claim C1: create blocks for ACTIVE, then reachability, then prints -/

theorem helper_waitActive_ok_sees_active (q : Nat → QueryOutcome) :
    ∀ fuel k k2, (waitActive q fuel k).2 = RunEnd.ok k2 →
      k < k2 ∧ ∃ i d, k ≤ i ∧ i < k2 ∧
        q i = QueryOutcome.found d ∧ d.status = "ACTIVE" := by
  intro fuel
  induction fuel with
  | zero => intro k k2 h; simp [waitActive] at h
  | succ n ih =>
    intro k k2 h
    cases hq : q k with
    | absent =>
      simp only [waitActive, hq] at h
      obtain ⟨hlt, i, d, hki, hik2, hd, hs⟩ := ih (k + 1) k2 h
      exact ⟨by omega, i, d, by omega, hik2, hd, hs⟩
    | raised e =>
      by_cases he : e = PyExn.typeError
      · simp only [waitActive, hq, he, if_pos] at h
        obtain ⟨hlt, i, d, hki, hik2, hd, hs⟩ := ih (k + 1) k2 h
        exact ⟨by omega, i, d, by omega, hik2, hd, hs⟩
      · simp [waitActive, hq, he] at h
    | found d =>
      by_cases hs : d.status = "ACTIVE"
      · simp only [waitActive, hq, hs, if_pos] at h
        have hk2 : k + 1 = k2 := by
          simpa using h
        exact ⟨by omega, k, d, Nat.le_refl k, by omega, hq, hs⟩
      · simp only [waitActive, hq, hs, if_neg, ite_false] at h
        obtain ⟨hlt, i, d0, hki, hik2, hd, hs0⟩ := ih (k + 1) k2 h
        exact ⟨by omega, i, d0, by omega, hik2, hd, hs0⟩

theorem helper_waitPing_ok_sees_ping (q : Nat → QueryOutcome)
    (ping : Nat → String → Bool) :
    ∀ fuel k p k2 ip, (waitPing q ping fuel k p).2 = RunEnd.ok (k2, ip) →
      k < k2 ∧ ∃ j d pj, k ≤ j ∧ j < k2 ∧
        q j = QueryOutcome.found d ∧ ip = d.network.2 ∧
        ping pj d.network.2 = true := by
  intro fuel
  induction fuel with
  | zero => intro k p k2 ip h; simp [waitPing] at h
  | succ n ih =>
    intro k p k2 ip h
    cases hq : q k with
    | absent =>
      simp only [waitPing, hq] at h
      obtain ⟨hlt, j, d, pj, hkj, hjk2, hd, hip, hping⟩ := ih (k + 1) p k2 ip h
      exact ⟨by omega, j, d, pj, by omega, hjk2, hd, hip, hping⟩
    | raised e =>
      simp only [waitPing, hq] at h
      obtain ⟨hlt, j, d, pj, hkj, hjk2, hd, hip, hping⟩ := ih (k + 1) p k2 ip h
      exact ⟨by omega, j, d, pj, by omega, hjk2, hd, hip, hping⟩
    | found d =>
      by_cases hp : ping p d.network.2 = true
      · simp only [waitPing, hq, hp, if_pos] at h
        have hk : k + 1 = k2 ∧ d.network.2 = ip := by simpa using h
        obtain ⟨hk2, hip⟩ := hk
        exact ⟨by omega, k, d, p, Nat.le_refl k, by omega, hq, hip.symm, hp⟩
      · simp only [waitPing, hq, hp, if_neg, Bool.not_eq_true, ite_false] at h
        obtain ⟨hlt, j, d0, pj, hkj, hjk2, hd, hip, hping⟩ :=
          ih (k + 1) (p + 1) k2 ip h
        exact ⟨by omega, j, d0, pj, by omega, hjk2, hd, hip, hping⟩

theorem helper_vm_create_ok_inv (name : String) (q : Nat → QueryOutcome)
    (ping : Nat → String → Bool) (fuel k1 k2 : Nat) (ip : String)
    (h : (vm_create name q ping fuel).2 = RunEnd.ok (k1, k2, ip)) :
    (waitActive q fuel 0).2 = RunEnd.ok k1 ∧
    (waitPing q ping fuel k1 0).2 = RunEnd.ok (k2, ip) := by
  unfold vm_create at h
  rcases h1 : waitActive q fuel 0 with ⟨es1, r1⟩
  rw [h1] at h
  cases r1 with
  | ok k1' =>
    dsimp only at h
    rcases h2 : waitPing q ping fuel k1' 0 with ⟨es2, r2⟩
    rw [h2] at h
    cases r2 with
    | ok pr =>
      rcases pr with ⟨k2', ip'⟩
      have heq : k1' = k1 ∧ k2' = k2 ∧ ip' = ip := by simpa using h
      obtain ⟨e1, e2, e3⟩ := heq
      subst e1; subst e2; subst e3
      exact ⟨by simp [h1], by simp [h2]⟩
    | exn e => simp at h
    | spin => simp at h
  | exn e => simp at h
  | spin => simp at h

theorem helper_mainCreate_ok_inv (name : String) (q : Nat → QueryOutcome)
    (ping : Nat → String → Bool) (fuel : Nat) (out : String)
    (h : (mainCreate name q ping fuel).2 = RunEnd.ok out) :
    ∃ k1 k2 ip dA, (vm_create name q ping fuel).2 = RunEnd.ok (k1, k2, ip) ∧
      q k2 = QueryOutcome.found dA ∧ out = dA.network.2 := by
  unfold mainCreate at h
  rcases hvc : vm_create name q ping fuel with ⟨es, rv⟩
  rw [hvc] at h
  cases rv with
  | ok tr =>
    rcases tr with ⟨k1, k2, ip⟩
    dsimp only at h
    cases hq2 : q k2 with
    | found dA =>
      rw [hq2] at h
      have : dA.network.2 = out := by simpa using h
      exact ⟨k1, k2, ip, dA, rfl, hq2, this.symm⟩
    | absent => rw [hq2] at h; simp at h
    | raised e => rw [hq2] at h; simp at h
  | exn e => simp at h
  | spin => simp at h

/-- Claim C1: whenever the `--create` command completes and prints, the run
first observed a status query returning ACTIVE, then (strictly later on the
same query stream) a snapshot whose first-attachment IP was successfully
pinged, and — on any run where the reported first-attachment IP is stable at
`ip0` — the printed string is that IP. -/
theorem create_blocks_until_active_and_reachable (name : String)
    (q : Nat → QueryOutcome) (ping : Nat → String → Bool) (fuel : Nat)
    (out ip0 : String)
    (h : (mainCreate name q ping fuel).2 = RunEnd.ok out)
    (hstable : ∀ j d, q j = QueryOutcome.found d → d.network.2 = ip0) :
    ∃ i j, i < j ∧
      (∃ d, q i = QueryOutcome.found d ∧ d.status = "ACTIVE") ∧
      (∃ d p, q j = QueryOutcome.found d ∧ d.network.2 = ip0 ∧
        ping p ip0 = true) ∧
      out = ip0 := by
  obtain ⟨k1, k2, ip, dA, hvc, hq2, hout⟩ :=
    helper_mainCreate_ok_inv name q ping fuel out h
  obtain ⟨hwa, hwp⟩ := helper_vm_create_ok_inv name q ping fuel k1 k2 ip hvc
  obtain ⟨hk1, i, d, hi0, hik1, hdi, hsi⟩ :=
    helper_waitActive_ok_sees_active q fuel 0 k1 hwa
  obtain ⟨hk2, j, d', pj, hk1j, hjk2, hdj, hip, hping⟩ :=
    helper_waitPing_ok_sees_ping q ping fuel k1 0 k2 ip hwp
  have hdip : d'.network.2 = ip0 := hstable j d' hdj
  refine ⟨i, j, by omega, ⟨d, hdi, hsi⟩, ⟨d', pj, hdj, hdip, ?_⟩, ?_⟩
  · rw [← hdip]; exact hping
  · rw [hout]; exact hstable k2 dA hq2

theorem create_blocks_until_active_and_reachable_witness :
    ∃ i j, i < j ∧
      (∃ d, (fun _ : Nat => QueryOutcome.found dActive) i =
              QueryOutcome.found d ∧ d.status = "ACTIVE") ∧
      (∃ d p, (fun _ : Nat => QueryOutcome.found dActive) j =
                QueryOutcome.found d ∧ d.network.2 = "10.0.0.5" ∧
        (fun _ : Nat => fun _ : String => true) p "10.0.0.5" = true) ∧
      "10.0.0.5" = "10.0.0.5" :=
  create_blocks_until_active_and_reachable "vm"
    (fun _ => QueryOutcome.found dActive) (fun _ _ => true) 3
    "10.0.0.5" "10.0.0.5" (by rfl) (fun j d hd => by cases hd; rfl)
